import Mathlib

/-!
Verification of the ADMS attendance-ingestion core of this repository
(`src/app/routers/adms.py`): the per-line ATTLOG parser, the bulk
recognition dispatcher, the rtlog single-event parser, the dual-sink
journal append, and the filtered export engine, shallowly embedded as
executable Lean definitions translated from the Python source.

Modelling conventions:
* Python strings are Lean `String`s (a wrapper around `List Char`);
  Python string helpers (`rstrip`, `strip`, `split`, `splitlines`,
  `upper`, truthiness, `str(None)`) are re-implemented character by
  character below, each named `py...` after the Python operation.
* `datetime.fromisoformat(...).isoformat(sep=" ")` is modelled by
  `pyFromisoformat`, covering the format family the device traffic uses:
  `YYYY-MM-DD[<sep>HH[:MM[:SS[.fff|.ffffff]]]]` with calendar
  validation.  Timezone suffixes and the basic (separator-free) ISO
  forms are outside the modelled subset.
* Fallible file I/O is modelled with `Except`, with the on-disk state
  reached at the failure point carried in the error.
-/

namespace Adms

/-- Python whitespace predicate used by `str.strip` / `str.split()`. -/
def pyIsSpace (c : Char) : Bool :=
  c = ' ' || c = '\t' || c = '\n' || c = '\r' || c = '\x0b' || c = '\x0c'

/-- Python `s.rstrip()`. -/
def pyRstrip (s : String) : String :=
  String.mk ((s.data.reverse.dropWhile pyIsSpace).reverse)

/-- Python `s.rstrip(",")`. -/
def pyRstripComma (s : String) : String :=
  String.mk ((s.data.reverse.dropWhile (fun c => c = ',')).reverse)

/-- Python `s.strip()`. -/
def pyStrip (s : String) : String :=
  String.mk (((s.data.dropWhile pyIsSpace).reverse.dropWhile pyIsSpace).reverse)

/-- Split a character list at every occurrence of `sep`, keeping empty
pieces: the model of Python `s.split(sep)` for a one-character `sep`. -/
def splitOnChar (sep : Char) : List Char → List (List Char)
  | [] => [[]]
  | c :: rest =>
    if c = sep then [] :: splitOnChar sep rest
    else
      match splitOnChar sep rest with
      | [] => [[c]]
      | h :: t => (c :: h) :: t

/-- Python `s.split(sep)` for a one-character separator. -/
def pySplit (sep : Char) (s : String) : List String :=
  (splitOnChar sep s.data).map String.mk

/-- Whitespace tokenisation: the model of argumentless Python `s.split()`
(`acc` holds the characters of the token being read, reversed). -/
def splitWsAux : List Char → List Char → List (List Char)
  | [], acc => if acc.isEmpty then [] else [acc.reverse]
  | c :: rest, acc =>
    if pyIsSpace c then
      if acc.isEmpty then splitWsAux rest []
      else acc.reverse :: splitWsAux rest []
    else splitWsAux rest (c :: acc)

/-- Join character lists with a single joining character between them. -/
def joinWith (sep : Char) : List (List Char) → List Char
  | [] => []
  | [x] => x
  | x :: xs => x ++ sep :: joinWith sep xs

/-- The source's timestamp pre-processing
`" ".join(dt_str.split()).replace(" ", "T")`: whitespace runs collapse
into a single `'T'` joiner (tokens themselves contain no spaces, so the
`replace` only rewrites the joiners). -/
def isoPrep (s : String) : String :=
  String.mk (joinWith 'T' (splitWsAux s.data []))

/-- Numeric value of a digit list (most significant first). -/
def digitsToNat (l : List Char) : Nat :=
  l.foldl (fun a c => a * 10 + (c.toNat - 48)) 0

/-- Decimal rendering of `n`, left-padded with zeros to `width`. -/
def padNum (width n : Nat) : List Char :=
  let s := Nat.toDigits 10 n
  List.replicate (width - s.length) '0' ++ s

/-- Gregorian leap-year test. -/
def isLeap (y : Nat) : Bool :=
  (y % 4 = 0 && y % 100 ≠ 0) || y % 400 = 0

/-- Length of month `m` in year `y`. -/
def daysInMonth (y m : Nat) : Nat :=
  if m = 2 then (if isLeap y then 29 else 28)
  else if m = 4 || m = 6 || m = 9 || m = 11 then 30 else 31

/-- `datetime.isoformat(sep=" ")`: `YYYY-MM-DD HH:MM:SS`, with a
6-digit microsecond block appended only when it is nonzero. -/
def renderDateTime (y mo d h mi s micro : Nat) : String :=
  String.mk (padNum 4 y ++ '-' :: padNum 2 mo ++ '-' :: padNum 2 d ++
    ' ' :: padNum 2 h ++ ':' :: padNum 2 mi ++ ':' :: padNum 2 s ++
    (if micro = 0 then [] else '.' :: padNum 6 micro))

/-- Parse the time-of-day tail of an ISO string: `HH`, `HH:MM`,
`HH:MM:SS`, or `HH:MM:SS` with a 3- or 6-digit fraction; yields
`(hour, minute, second, microsecond)`. -/
def parseIsoTime : List Char → Option (Nat × Nat × Nat × Nat)
  | [h1, h2] =>
    if h1.isDigit && h2.isDigit && digitsToNat [h1, h2] ≤ 23 then
      some (digitsToNat [h1, h2], 0, 0, 0)
    else none
  | [h1, h2, ':', m1, m2] =>
    if h1.isDigit && h2.isDigit && m1.isDigit && m2.isDigit &&
        digitsToNat [h1, h2] ≤ 23 && digitsToNat [m1, m2] ≤ 59 then
      some (digitsToNat [h1, h2], digitsToNat [m1, m2], 0, 0)
    else none
  | [h1, h2, ':', m1, m2, ':', s1, s2] =>
    if h1.isDigit && h2.isDigit && m1.isDigit && m2.isDigit &&
        s1.isDigit && s2.isDigit && digitsToNat [h1, h2] ≤ 23 &&
        digitsToNat [m1, m2] ≤ 59 && digitsToNat [s1, s2] ≤ 59 then
      some (digitsToNat [h1, h2], digitsToNat [m1, m2], digitsToNat [s1, s2], 0)
    else none
  | h1 :: h2 :: ':' :: m1 :: m2 :: ':' :: s1 :: s2 :: '.' :: frac =>
    if h1.isDigit && h2.isDigit && m1.isDigit && m2.isDigit &&
        s1.isDigit && s2.isDigit && digitsToNat [h1, h2] ≤ 23 &&
        digitsToNat [m1, m2] ≤ 59 && digitsToNat [s1, s2] ≤ 59 &&
        frac.all Char.isDigit && (frac.length = 3 || frac.length = 6) then
      some (digitsToNat [h1, h2], digitsToNat [m1, m2], digitsToNat [s1, s2],
        digitsToNat frac * (if frac.length = 3 then 1000 else 1))
    else none
  | _ => none

/-- Model of `datetime.fromisoformat(s).isoformat(sep=" ")`: `none` when
`fromisoformat` raises.  The date part must be a valid zero-padded
calendar date `YYYY-MM-DD` with year ≥ 1; an optional time part follows
after one arbitrary separator character. -/
def pyFromisoformat (s : String) : Option String :=
  match s.data with
  | y1 :: y2 :: y3 :: y4 :: '-' :: mo1 :: mo2 :: '-' :: d1 :: d2 :: rest =>
    if y1.isDigit && y2.isDigit && y3.isDigit && y4.isDigit &&
        mo1.isDigit && mo2.isDigit && d1.isDigit && d2.isDigit then
      let y := digitsToNat [y1, y2, y3, y4]
      let mo := digitsToNat [mo1, mo2]
      let d := digitsToNat [d1, d2]
      if 1 ≤ y && 1 ≤ mo && mo ≤ 12 && 1 ≤ d && d ≤ daysInMonth y mo then
        match rest with
        | [] => some (renderDateTime y mo d 0 0 0 0)
        | _ :: t =>
          (parseIsoTime t).map (fun q => renderDateTime y mo d q.1 q.2.1 q.2.2.1 q.2.2.2)
      else none
    else none
  | _ => none

/-- The source's best-effort normalisation: `ts_fmt = dt_str` followed by
a guarded `ts_fmt = fromisoformat(prep(dt_str)).isoformat(sep=" ")` whose
failure is swallowed, so a failed parse keeps the original string. -/
def tsNormalize (s : String) : String :=
  (pyFromisoformat (isoPrep s)).getD s

/-- The 7-field `ext` mapping produced by the extended tab-separated
encoding (`verified, status, punch, workcode, c7, c8, c9`). -/
structure Ext where
  verified : Option String
  status : Option String
  punch : Option String
  workcode : Option String
  c7 : Option String
  c8 : Option String
  c9 : Option String
deriving DecidableEq, Repr

/-- The canonical event dict built by the parsers.  `ext = none` models
the empty Python dict `{}`; `ext = some e` models the populated 7-key
dict of the extended encoding. -/
structure Event where
  user_id : String
  timestamp : Option String
  status : Option String
  punch : Option String
  workcode : Option String
  ext : Option Ext
deriving DecidableEq, Repr

/-- `line.rstrip().rstrip(",")` — the candidate-line trimming of
`_parse_attlog_line`. -/
def attlogTrim (line : String) : String :=
  pyRstripComma (pyRstrip line)

/-- The extended-encoding selector: `"\t" in raw and "," not in raw`. -/
def tsvSel (raw : String) : Bool :=
  raw.data.contains '\t' && !(raw.data.contains ',')

/-- Drop trailing empty strings: the `while parts and parts[-1] == "":
parts.pop()` loop. -/
def dropTrailingEmptyS (l : List String) : List String :=
  (l.reverse.dropWhile (fun s => s == "")).reverse

/-- Tab fields of an extended line, trailing empties dropped. -/
def tsvParts (raw : String) : List String :=
  dropTrailingEmptyS (pySplit '\t' raw)

/-- Comma fields of a short line, each `.strip()`ped
(`[p.strip() for p in raw.split(",")]`); right-padding with `None` to 5
slots is modelled by `l[i]?` lookups, which yield `none` past the end. -/
def csvParts (raw : String) : List String :=
  (pySplit ',' raw).map pyStrip

/-- `_parse_attlog_line` of `src/app/routers/adms.py` (lines 62-116):
trim, reject empty lines, then either the extended tab-separated
encoding (≥ 2 fields required, fields 2-8 populate `ext`, top-level
`status`/`punch`/`workcode` mirror `ext`) or the short comma-separated
encoding (fields padded to 5, empty `ext`). -/
def _parse_attlog_line (line : String) : Option Event :=
  let raw := attlogTrim line
  if raw = "" then none
  else if tsvSel raw then
    let parts := tsvParts raw
    if 2 ≤ parts.length then
      some { user_id := pyStrip (parts[0]?.getD "")
           , timestamp := some (tsNormalize (pyStrip (parts[1]?.getD "")))
           , status := parts[3]?.map pyStrip
           , punch := parts[4]?.map pyStrip
           , workcode := parts[5]?.map pyStrip
           , ext := some { verified := parts[2]?.map pyStrip
                         , status := parts[3]?.map pyStrip
                         , punch := parts[4]?.map pyStrip
                         , workcode := parts[5]?.map pyStrip
                         , c7 := parts[6]?.map pyStrip
                         , c8 := parts[7]?.map pyStrip
                         , c9 := parts[8]?.map pyStrip } }
    else none
  else
    let parts := csvParts raw
    some { user_id := parts[0]?.getD ""
         , timestamp := parts[1]?.map tsNormalize
         , status := parts[2]?
         , punch := parts[3]?
         , workcode := parts[4]?
         , ext := none }

/-- Python truthiness of a string-or-`None` value (`None` and `""` are
falsy). -/
def truthyS : Option String → Bool
  | none => false
  | some s => !(s == "")

/-- Python `a or b` over string-or-`None` values. -/
def pyOrS (a b : Option String) : Option String :=
  if truthyS a then a else b

/-- `_parse_rtlog` of `src/app/routers/adms.py` (lines 312-347).  The
payload is modelled as an association map with string values; the
source's `norm` step, which only collapses one-element list values, is
the identity on this modelled subset (multi-valued HTTP parameters are
outside the model). -/
def _parse_rtlog (payload : List (String × String)) : Option Event :=
  let pin := pyOrS (payload.lookup "PIN") (payload.lookup "pin")
  let tstr := pyOrS (payload.lookup "Time") (payload.lookup "time")
  let st := pyOrS (payload.lookup "Status") (payload.lookup "status")
  let wc := pyOrS (payload.lookup "Workcode") (payload.lookup "workcode")
  if !(truthyS pin) || !(truthyS tstr) then none
  else
    some { user_id := pin.getD ""
         , timestamp := some (tsNormalize (tstr.getD ""))
         , status := st
         , punch := none
         , workcode := wc
         , ext := none }

/-- A query-parameter value: FastAPI delivers strings, and the
form-merge in the endpoints can deliver lists of strings. -/
inductive QVal
  | str (s : String)
  | list (l : List String)
deriving DecidableEq

/-- Python `str(v)` on a query value; the list case renders the Python
list repr (quote escaping inside elements is not modelled — no claim
depends on it, only on the fact that the result starts with `[`). -/
def pyStrQ : QVal → String
  | .str s => s
  | .list l =>
    String.mk ('[' :: (joinWith ',' (l.map (fun s => ('\x27' :: s.data) ++ ['\x27']))) ++ [']'])

/-- Python `s.upper()` (ASCII). -/
def pyUpper (s : String) : String :=
  String.mk (s.data.map Char.toUpper)

/-- `str(query.get("table", "")).upper() == "ATTLOG"`. -/
def tableIsAttlog (query : List (String × QVal)) : Bool :=
  pyUpper (pyStrQ ((query.lookup "table").getD (QVal.str ""))) == "ATTLOG"

/-- The `raw_lines` list built from the `ATTLOG` query parameter:
`extend` for a list value, `append` for a truthy (non-empty) string. -/
def attlogParamLines (query : List (String × QVal)) : List String :=
  match query.lookup "ATTLOG" with
  | some (QVal.list l) => l
  | some (QVal.str s) => if s == "" then [] else [s]
  | none => []

/-- Python `s.splitlines()` over `\n`, `\r\n` and `\r` (the rare extra
Unicode line boundaries Python also splits on are outside the model). -/
def splitlinesAux : List Char → List Char → List (List Char)
  | [], acc => if acc.isEmpty then [] else [acc.reverse]
  | '\r' :: '\n' :: rest, acc => acc.reverse :: splitlinesAux rest []
  | '\n' :: rest, acc => acc.reverse :: splitlinesAux rest []
  | '\r' :: rest, acc => acc.reverse :: splitlinesAux rest []
  | c :: rest, acc => splitlinesAux rest (c :: acc)

/-- Python `s.splitlines()`. -/
def pySplitlines (s : String) : List String :=
  (splitlinesAux s.data []).map String.mk

/-- Whether `sub` occurs as a contiguous substring: Python `sub in s`. -/
def containsSub (sub : List Char) : List Char → Bool
  | [] => sub.isEmpty
  | c :: rest => sub.isPrefixOf (c :: rest) || containsSub sub rest

/-- Python `sub in s` on strings. -/
def containsStr (sub s : String) : Bool :=
  containsSub sub.data s.data

/-- Everything after the first occurrence of `sub`
(`s.split(sub, 1)[1]`, defined when `sub` occurs). -/
def afterSub (sub : List Char) : List Char → List Char
  | [] => []
  | c :: rest =>
    if sub.isPrefixOf (c :: rest) then (c :: rest).drop sub.length
    else afterSub sub rest

/-- The suffix of a body line after its first `ATTLOG=` marker. -/
def markerSuffix (line : String) : String :=
  String.mk (afterSub ("ATTLOG=".data) line.data)

/-- Events contributed by the `ATTLOG` query parameter (first block of
`_maybe_parse_attlog`). -/
def attlogQueryEvents (query : List (String × QVal)) : List Event :=
  if tableIsAttlog query then
    (attlogParamLines query).flatMap
      (fun rl => (pySplitlines rl).filterMap _parse_attlog_line)
  else []

/-- Events contributed by `ATTLOG=`-marker lines of the body. -/
def attlogMarkerEvents (body : String) : List Event :=
  (pySplitlines body).filterMap
    (fun line =>
      if containsStr "ATTLOG=" line then _parse_attlog_line (markerSuffix line)
      else none)

/-- Events contributed by treating every body line as a candidate. -/
def attlogBodyLineEvents (body : String) : List Event :=
  (pySplitlines body).filterMap _parse_attlog_line

/-- `_maybe_parse_attlog` of `src/app/routers/adms.py` (lines 118-142),
transcribed monolithically: the query-parameter block always runs first
when `table` equals `ATTLOG`; the body then contributes through the
marker rule or, failing that, through the whole-body-lines rule. -/
def _maybe_parse_attlog (query : List (String × QVal)) (body : String) : List Event :=
  let events1 :=
    if pyUpper (pyStrQ ((query.lookup "table").getD (QVal.str ""))) == "ATTLOG" then
      (match query.lookup "ATTLOG" with
        | some (QVal.list l) => l
        | some (QVal.str s) => if s == "" then [] else [s]
        | none => []).flatMap
        (fun rl => (pySplitlines rl).filterMap _parse_attlog_line)
    else []
  let events2 :=
    if containsStr "ATTLOG=" body then
      (pySplitlines body).filterMap
        (fun line =>
          if containsStr "ATTLOG=" line then _parse_attlog_line (markerSuffix line)
          else none)
    else if (pyUpper (pyStrQ ((query.lookup "table").getD (QVal.str ""))) == "ATTLOG")
        && (body.data.contains '\t' || body.data.contains '\n') then
      (pySplitlines body).filterMap _parse_attlog_line
    else []
  events1 ++ events2

/-- An event decorated with ingestion metadata, as built by `_ingest` /
`iclock_rtlog` (`{"ts_ingest": ts, "sn": sn, **ev, "raw_source": path}`). -/
structure EvNorm where
  ts_ingest : String
  sn : Option String
  ev : Event
  raw_source : String
deriving DecidableEq

/-- One data row of the tabular sink, cell values before CSV
serialisation (`None` cells are written as empty CSV fields). -/
abbrev CsvRow := List (Option String)

/-- The 15 cells `_append_csv_row` writes for an event. -/
def csvRowOf (e : EvNorm) : CsvRow :=
  [ some e.ts_ingest
  , e.sn
  , some e.ev.user_id
  , e.ev.timestamp
  , e.ev.status
  , e.ev.punch
  , e.ev.workcode
  , e.ev.ext.bind Ext.verified
  , e.ev.ext.bind Ext.status
  , e.ev.ext.bind Ext.punch
  , e.ev.ext.bind Ext.workcode
  , e.ev.ext.bind Ext.c7
  , e.ev.ext.bind Ext.c8
  , e.ev.ext.bind Ext.c9
  , some e.raw_source ]

/-- On-disk state of the two journal sinks.  `csv = none` models an
absent tabular file; `csv = some rows` models the file with its header
already written, holding `rows` data rows. -/
structure Journal where
  ndjson : List EvNorm
  csv : Option (List CsvRow)
deriving DecidableEq

/-- `_append_ndjson`: append one record line to the record sink. -/
def _append_ndjson (j : Journal) (e : EvNorm) : Journal :=
  { j with ndjson := j.ndjson ++ [e] }

/-- `_append_csv_header_if_needed`: create the tabular file with its
header when it does not exist yet. -/
def _append_csv_header_if_needed (j : Journal) : Journal :=
  if j.csv.isSome then j else { j with csv := some [] }

/-- `_append_csv_row`: header check, then the row append.  `ok` models
whether the underlying file append succeeds; on failure the error
carries the on-disk state at the failure point. -/
def _append_csv_row (ok : Bool) (j : Journal) (e : EvNorm) : Except Journal Journal :=
  let j1 := _append_csv_header_if_needed j
  if ok then Except.ok { j1 with csv := some ((j1.csv.getD []) ++ [csvRowOf e]) }
  else Except.error j1

/-- The per-event journal append performed by `_ingest` (lines 152-155)
and `iclock_rtlog`: record sink first, tabular sink second, with no
rollback on failure. -/
def journalAppend (ok : Bool) (j : Journal) (e : EvNorm) : Except Journal Journal :=
  _append_csv_row ok (_append_ndjson j e) e

/-- The flattened projection `ev_flat` built by both export endpoints. -/
structure EvFlat where
  ts_ingest : String
  sn : Option String
  user_id : String
  timestamp : Option String
  status : Option String
  punch : Option String
  workcode : Option String
  ext_verified : Option String
  ext_status : Option String
  ext_punch : Option String
  ext_workcode : Option String
  ext_c7 : Option String
  ext_c8 : Option String
  ext_c9 : Option String
  raw_source : String
deriving DecidableEq

/-- Flattening of a journal record into `ev_flat`
(`ext = ev.get("ext") or {}` followed by the 15 field reads). -/
def toFlat (e : EvNorm) : EvFlat :=
  { ts_ingest := e.ts_ingest
  , sn := e.sn
  , user_id := e.ev.user_id
  , timestamp := e.ev.timestamp
  , status := e.ev.status
  , punch := e.ev.punch
  , workcode := e.ev.workcode
  , ext_verified := e.ev.ext.bind Ext.verified
  , ext_status := e.ev.ext.bind Ext.status
  , ext_punch := e.ev.ext.bind Ext.punch
  , ext_workcode := e.ev.ext.bind Ext.workcode
  , ext_c7 := e.ev.ext.bind Ext.c7
  , ext_c8 := e.ev.ext.bind Ext.c8
  , ext_c9 := e.ev.ext.bind Ext.c9
  , raw_source := e.raw_source }

/-- Python `str(v)` on a string-or-`None` value (`str(None) = "None"`). -/
def pyStrO : Option String → String
  | none => "None"
  | some s => s

/-- `[ev_flat.get(k) for k in header]` — the cells of the tabular
export, in the fixed 15-column header order. -/
def rowOfFlat (e : EvFlat) : CsvRow :=
  [ some e.ts_ingest, e.sn, some e.user_id, e.timestamp, e.status, e.punch
  , e.workcode, e.ext_verified, e.ext_status, e.ext_punch, e.ext_workcode
  , e.ext_c7, e.ext_c8, e.ext_c9, some e.raw_source ]

/-- `_row_matches` of `src/app/routers/adms.py` (lines 214-224): exact
`sn`/`user_id` equality and lexicographic inclusive `since`/`until`
bounds on `str(ev.get("timestamp", ""))`. -/
def _row_matches (ev : EvFlat) (sn user_id since until_ : Option String) : Bool :=
  if truthyS sn && !(pyStrO ev.sn == sn.getD "") then false
  else if truthyS user_id && !(ev.user_id == user_id.getD "") then false
  else
    let ts := pyStrO ev.timestamp
    if truthyS since && decide (ts < since.getD "") then false
    else if truthyS until_ && decide (until_.getD "" < ts) then false
    else true

/-- Python `l[-limit:]` for an `int` limit: the last `limit` elements
when `limit > 0`, everything when `limit == 0` (since `-0 == 0`), and a
drop of the first `-limit` elements when `limit < 0`. -/
def pyTail (l : List α) (limit : Int) : List α :=
  if 0 < limit then l.drop (l.length - limit.toNat)
  else if limit = 0 then l
  else l.drop (-limit).toNat

/-- The filtered flat view both export endpoints build before slicing. -/
def matchedFlat (db : List EvNorm) (sn user_id since until_ : Option String) : List EvFlat :=
  (db.map toFlat).filter (fun e => _row_matches e sn user_id since until_)

/-- `export_json` (lines 226-263) on a record-sink content `db`: filter
while scanning, then `items[-limit:]`.  The JSON round trip through the
NDJSON file is modelled as the identity. -/
def export_json_items (db : List EvNorm) (sn user_id since until_ : Option String)
    (limit : Int) : List EvFlat :=
  pyTail (matchedFlat db sn user_id since until_) limit

/-- `export_csv` (lines 265-307) on a record-sink content `db`: same
filter, rows projected in header order, then `rows[-limit:]`. -/
def export_csv_rows (db : List EvNorm) (sn user_id since until_ : Option String)
    (limit : Int) : List CsvRow :=
  pyTail ((matchedFlat db sn user_id since until_).map rowOfFlat) limit

/-- The structural acceptance condition of `_parse_attlog_line`: a
candidate line yields an event exactly when it is non-empty after
trimming and, in the extended encoding, has at least two fields.  This
predicate makes no reference to the timestamp normaliser. -/
def attlogLineAccepted (line : String) : Bool :=
  let raw := attlogTrim line
  if raw = "" then false
  else if tsvSel raw then decide (2 ≤ (tsvParts raw).length)
  else true

/-- The structural acceptance condition of `_parse_rtlog`: a truthy
`PIN`/`pin` and a truthy `Time`/`time`.  No reference to the timestamp
normaliser. -/
def rtlogAccepted (payload : List (String × String)) : Bool :=
  truthyS (pyOrS (payload.lookup "PIN") (payload.lookup "pin")) &&
  truthyS (pyOrS (payload.lookup "Time") (payload.lookup "time"))

/-!  ## Theorems -/

/-- C1 counterexample: the short-encoding candidate line `"abc"` has no
comma and no tab, so field 1 (the timestamp) is absent, yet
`_parse_attlog_line` yields an event (with a `null` timestamp) — the
claim that a candidate line lacking `timestamp` yields no event is
false on the code. -/
theorem c1_counterexample :
    _parse_attlog_line "abc" = some ⟨"abc", none, none, none, none, none⟩ := by
  rfl

/-- C1 (amended): `parse_single` yields no event when `PIN` or `Time`
is missing or empty, and a tab-separated bulk line with fewer than two
fields yields no event; but a short-encoding bulk line is never
rejected, even when its `user_id` or `timestamp` slot is empty or
absent — the lacking fields are simply `null`/empty in the event. -/
theorem c1_mandatory_fields :
    (∀ payload : List (String × String),
      truthyS (pyOrS (payload.lookup "PIN") (payload.lookup "pin")) = false ∨
        truthyS (pyOrS (payload.lookup "Time") (payload.lookup "time")) = false →
      _parse_rtlog payload = none) ∧
    (∀ line : String, tsvSel (attlogTrim line) = true →
      (tsvParts (attlogTrim line)).length < 2 → _parse_attlog_line line = none) ∧
    (∀ line : String, attlogTrim line ≠ "" → tsvSel (attlogTrim line) = false →
      (_parse_attlog_line line).isSome = true) := by
  refine ⟨?_, ?_, ?_⟩
  · intro payload h
    unfold _parse_rtlog
    rcases h with h | h <;> simp [h]
  · intro line h1 h2
    unfold _parse_attlog_line
    by_cases h0 : attlogTrim line = ""
    · simp [h0]
    · simp only [h0, if_false, h1, if_true, if_neg (by omega : ¬ 2 ≤ (tsvParts (attlogTrim line)).length)]
  · intro line h1 h2
    unfold _parse_attlog_line
    simp [h1, h2]

/-- C1 witness: a payload with `Time` but no `PIN` yields no rtlog
event; the line `"7\t,"` trims to `"7\t"`, is selected as extended but
has a single field, so it yields no event; the short line `"abc"` is
accepted. -/
theorem c1_witness :
    _parse_rtlog [("Time", "2024-02-01 09:15:00")] = none ∧
    _parse_attlog_line "7\t," = none ∧
    (_parse_attlog_line "abc").isSome = true :=
  ⟨c1_mandatory_fields.1 _ (Or.inl (by rfl)),
   c1_mandatory_fields.2.1 _ (by rfl) (by decide),
   c1_mandatory_fields.2.2 _ (by decide) (by rfl)⟩

/-- C2 counterexample: with `table=ATTLOG`, an `ATTLOG=1` query
parameter and the body `"ATTLOG=2"`, the parser emits events from BOTH
the query-parameter source (user `"1"`) and the body-marker source
(user `"2"`), so the claim that exactly one of the three sources
contributes, with the body marker winning, is false on the code. -/
theorem c2_counterexample :
    _maybe_parse_attlog [("table", QVal.str "ATTLOG"), ("ATTLOG", QVal.str "1")]
        "ATTLOG=2" =
      [⟨"1", none, none, none, none, none⟩, ⟨"2", none, none, none, none, none⟩] := by
  rfl

/-- C2 (amended): the recognition is not first-match-wins across all
three sources.  The `ATTLOG` query-parameter source contributes
whenever `table` equals `ATTLOG` case-insensitively, regardless of the
body, and its events come first; independently, the body contributes
through at most one of the two body rules — marker lines if `ATTLOG=`
occurs anywhere in the body, else whole body lines when `table` is
`ATTLOG` and the body contains a tab or newline. -/
theorem c2_source_composition (q : List (String × QVal)) (b : String) :
    _maybe_parse_attlog q b =
      attlogQueryEvents q ++
        (if containsStr "ATTLOG=" b then attlogMarkerEvents b
         else if tableIsAttlog q && (b.data.contains '\t' || b.data.contains '\n') then
           attlogBodyLineEvents b
         else []) := by
  rfl

/-- C3 counterexample: on an empty journal, a failed tabular write
leaves the freshly appended event in the record sink while the tabular
sink holds no data row — the two sinks diverge, falsifying the
all-or-nothing claim (and in particular "a failure while writing the
tabular row leaves the record sink unchanged"). -/
theorem c3_counterexample :
    journalAppend false { ndjson := [], csv := none }
        { ts_ingest := "t0", sn := none
        , ev := ⟨"1001", some "2024-01-31 08:00:00", none, none, none, none⟩
        , raw_source := "/iclock/cdata" } =
      Except.error
        { ndjson := [{ ts_ingest := "t0", sn := none
                     , ev := ⟨"1001", some "2024-01-31 08:00:00", none, none, none, none⟩
                     , raw_source := "/iclock/cdata" }]
        , csv := some [] } := by
  rfl

/-- C3 (amended): the append is record-sink-first with no rollback.  On
success both sinks gain exactly one corresponding entry; when the
tabular write fails, the record sink has already gained the event and
the tabular sink has gained no data row (at most the idempotent
header), so the sinks can diverge by exactly the failed event. -/
theorem c3_sink_divergence (j : Journal) (e : EvNorm) :
    journalAppend false j e =
      Except.error { ndjson := j.ndjson ++ [e], csv := some (j.csv.getD []) } ∧
    journalAppend true j e =
      Except.ok { ndjson := j.ndjson ++ [e]
                , csv := some (j.csv.getD [] ++ [csvRowOf e]) } := by
  unfold journalAppend _append_csv_row _append_csv_header_if_needed _append_ndjson
  cases hc : j.csv <;> simp [hc]

/-- C4 counterexample: on the Scenario A line the event's top-level
`status` is `"0"` (mirroring extension field 3), not `"1"` as the claim
states (the claim also expects `workcode = "0"` where the code yields
`null`). -/
theorem c4_counterexample :
    (_parse_attlog_line "1001\t2024-01-31 08:00:00\t1\t0\t0").map Event.status ≠
      some (some "1") := by
  decide

/-- C4 (amended): the Scenario A line yields exactly one event with
`user_id "1001"`, `timestamp "2024-01-31 08:00:00"`, top-level
`status "0"`, `punch "0"`, `workcode null`, and extension
`{verified "1", status "0", punch "0", workcode null, c7 null, c8 null,
c9 null}` — the top-level fields mirror the extension's
`status`/`punch`/`workcode` (positions 3-5), not positions 2-4. -/
theorem c4_scenario_a :
    _parse_attlog_line "1001\t2024-01-31 08:00:00\t1\t0\t0" =
      some ⟨"1001", some "2024-01-31 08:00:00", some "0", some "0", none,
        some ⟨some "1", some "0", some "0", none, none, none, none⟩⟩ := by
  rfl

/-- C5: every candidate line that is non-empty after trimming and
contains a comma takes the short-encoding branch and yields exactly one
event: fields are the comma-split, `.strip()`ped pieces, right-padded
with `null` to five slots (`l[i]?` is `none` past the end), mapped
positionally to `user_id, timestamp, status, punch, workcode` (the
timestamp slot best-effort normalised), with an empty extension. -/
theorem c5_short_encoding (line : String) (h1 : attlogTrim line ≠ "")
    (h2 : (attlogTrim line).data.contains ',' = true) :
    _parse_attlog_line line =
      some { user_id := (csvParts (attlogTrim line))[0]?.getD ""
           , timestamp := (csvParts (attlogTrim line))[1]?.map tsNormalize
           , status := (csvParts (attlogTrim line))[2]?
           , punch := (csvParts (attlogTrim line))[3]?
           , workcode := (csvParts (attlogTrim line))[4]?
           , ext := none } := by
  have hts : tsvSel (attlogTrim line) = false := by
    unfold tsvSel
    rw [h2]
    simp
  unfold _parse_attlog_line
  simp [h1, hts]

/-- C5 witness at the Scenario B line. -/
theorem c5_witness :
    _parse_attlog_line "1001,2024-01-31 08:00:00,1,0" =
      some { user_id := (csvParts (attlogTrim "1001,2024-01-31 08:00:00,1,0"))[0]?.getD ""
           , timestamp :=
               (csvParts (attlogTrim "1001,2024-01-31 08:00:00,1,0"))[1]?.map tsNormalize
           , status := (csvParts (attlogTrim "1001,2024-01-31 08:00:00,1,0"))[2]?
           , punch := (csvParts (attlogTrim "1001,2024-01-31 08:00:00,1,0"))[3]?
           , workcode := (csvParts (attlogTrim "1001,2024-01-31 08:00:00,1,0"))[4]?
           , ext := none } :=
  c5_short_encoding _ (by decide) (by rfl)

/-- The tail-truncation property of the export endpoints at limit `K`:
both projections return `min K.toNat #matches` events forming a suffix
of the matching events in arrival order. -/
def exportTailProp (db : List EvNorm) (sn user_id since until_ : Option String)
    (K : Int) : Prop :=
  (export_json_items db sn user_id since until_ K).length =
      min K.toNat (matchedFlat db sn user_id since until_).length ∧
  export_json_items db sn user_id since until_ K <:+
      matchedFlat db sn user_id since until_ ∧
  (export_csv_rows db sn user_id since until_ K).length =
      min K.toNat (matchedFlat db sn user_id since until_).length ∧
  export_csv_rows db sn user_id since until_ K <:+
      (matchedFlat db sn user_id since until_).map rowOfFlat

/-- C6 counterexample: `limit = 0` does not bound the result — Python
`items[-0:]` is the whole list, so a journal with one matching event
returns one event, more than `K = 0`.  The claim fails for
non-positive `K`. -/
theorem c6_counterexample :
    ¬ ((export_json_items
          [{ ts_ingest := "t0", sn := none
           , ev := ⟨"1", none, none, none, none, none⟩
           , raw_source := "/p" }] none none none none 0).length ≤ 0) := by
  decide

/-- C6 (amended): for every POSITIVE integer `K`, both export
projections return exactly `min K #matches` events and those events are
a suffix (tail) of the filtered journal in arrival order; for `K = 0`
Python slice semantics return all matches, and for negative `K` all but
the first `-K`. -/
theorem c6_positive_limit (db : List EvNorm) (sn user_id since until_ : Option String)
    (K : Int) (hK : 0 < K) : exportTailProp db sn user_id since until_ K := by
  unfold exportTailProp export_json_items export_csv_rows pyTail
  simp only [if_pos hK]
  refine ⟨?_, ?_, ?_, ?_⟩
  · rw [List.length_drop]
    omega
  · exact List.drop_suffix _ _
  · rw [List.length_drop, List.length_map]
    omega
  · exact List.drop_suffix _ _

/-- C6 witness: a one-event journal with `limit = 1`. -/
theorem c6_witness :
    exportTailProp
      [{ ts_ingest := "t0", sn := none
       , ev := ⟨"1", none, none, none, none, none⟩
       , raw_source := "/p" }] none none none none 1 :=
  c6_positive_limit _ _ _ _ _ _ (by decide)

/-- C7 counterexample: the mixed-case key `Pin` is not recognised — the
source only tries `PIN` then `pin` — so a payload with `Pin` and `Time`
yields no event, falsifying the case-insensitive-lookup claim. -/
theorem c7_counterexample :
    _parse_rtlog [("Pin", "77"), ("Time", "2024-02-01 09:15:00")] = none := by
  rfl

/-- C7 (amended): the rtlog parser locates each parameter by trying
exactly its canonical capitalisation (`PIN`, `Time`, `Status`,
`Workcode`) and then its all-lowercase form; payloads keyed in either
of those two casings are parsed, while any other case mixture (such as
`Pin`) is not found. -/
theorem c7_exact_casings (v w : String) (h1 : v ≠ "") (h2 : w ≠ "") :
    _parse_rtlog [("PIN", v), ("Time", w)] =
      some { user_id := v, timestamp := some (tsNormalize w), status := none
           , punch := none, workcode := none, ext := none } ∧
    _parse_rtlog [("pin", v), ("time", w)] =
      some { user_id := v, timestamp := some (tsNormalize w), status := none
           , punch := none, workcode := none, ext := none } ∧
    _parse_rtlog [("Pin", v), ("Time", w)] = none := by
  have hv : (v == "") = false := by
    simpa using h1
  have hw : (w == "") = false := by
    simpa using h2
  refine ⟨?_, ?_, rfl⟩ <;> unfold _parse_rtlog <;>
    simp [List.lookup, truthyS, pyOrS, hv, hw]

/-- C7 witness at `v = "77"`, `w = "t"`. -/
theorem c7_witness :
    _parse_rtlog [("PIN", "77"), ("Time", "t")] =
      some { user_id := "77", timestamp := some (tsNormalize "t"), status := none
           , punch := none, workcode := none, ext := none } ∧
    _parse_rtlog [("pin", "77"), ("time", "t")] =
      some { user_id := "77", timestamp := some (tsNormalize "t"), status := none
           , punch := none, workcode := none, ext := none } ∧
    _parse_rtlog [("Pin", "77"), ("Time", "t")] = none :=
  c7_exact_casings "77" "t" (by decide) (by decide)

/-- C8: every event the rtlog parser produces has a `null` `punch` —
the source writes `"punch": None` unconditionally. -/
theorem c8_rtlog_punch_null (payload : List (String × String)) (ev : Event)
    (h : _parse_rtlog payload = some ev) : ev.punch = none := by
  unfold _parse_rtlog at h
  dsimp only at h
  split at h
  · exact absurd h (by simp)
  · simp only [Option.some.injEq] at h
    subst h
    rfl

/-- C8 witness at the Scenario C payload
`{PIN: "77", Time: "2024-02-01 09:15:00", Status: "1"}`. -/
theorem c8_witness :
    Event.punch ⟨"77", some "2024-02-01 09:15:00", some "1", none, none, none⟩ = none :=
  c8_rtlog_punch_null
    [("PIN", "77"), ("Time", "2024-02-01 09:15:00"), ("Status", "1")] _ (by rfl)

/-- C9: (1) when `fromisoformat` fails on the prepared timestamp, the
normaliser returns the original string verbatim; (2)/(3) whether a bulk
line or an rtlog payload yields an event is exactly the structural
acceptance condition, which never consults the timestamp normaliser —
so a malformed timestamp never causes a record to be rejected, and the
accepted event carries the raw string. -/
theorem c9_malformed_ts_nonfatal :
    (∀ s : String, pyFromisoformat (isoPrep s) = none → tsNormalize s = s) ∧
    (∀ line : String, (_parse_attlog_line line).isSome = attlogLineAccepted line) ∧
    (∀ payload : List (String × String),
      (_parse_rtlog payload).isSome = rtlogAccepted payload) := by
  refine ⟨?_, ?_, ?_⟩
  · intro s h
    unfold tsNormalize
    rw [h]
    rfl
  · intro line
    unfold _parse_attlog_line attlogLineAccepted
    by_cases h0 : attlogTrim line = ""
    · simp [h0]
    · by_cases hsel : tsvSel (attlogTrim line) = true
      · by_cases hlen : 2 ≤ (tsvParts (attlogTrim line)).length
        · simp [h0, hsel, hlen]
        · simp [h0, hsel, hlen]
      · simp [h0, hsel]
  · intro payload
    unfold _parse_rtlog rtlogAccepted
    by_cases hp : truthyS (pyOrS (payload.lookup "PIN") (payload.lookup "pin")) = true <;>
      by_cases ht : truthyS (pyOrS (payload.lookup "Time") (payload.lookup "time")) = true <;>
        simp [hp, ht]

/-- C9 witness: `"not-a-date"` fails normalisation and is kept
verbatim; the acceptance equations instantiated at a bulk line and at
an rtlog payload whose timestamps are malformed. -/
theorem c9_witness :
    tsNormalize "not-a-date" = "not-a-date" ∧
    (_parse_attlog_line "8,not-a-date").isSome = attlogLineAccepted "8,not-a-date" ∧
    (_parse_rtlog [("PIN", "8"), ("Time", "not-a-date")]).isSome =
      rtlogAccepted [("PIN", "8"), ("Time", "not-a-date")] :=
  ⟨c9_malformed_ts_nonfatal.1 _ (by rfl),
   c9_malformed_ts_nonfatal.2.1 _,
   c9_malformed_ts_nonfatal.2.2 _⟩

/-- C10: the per-line bulk parser is total — it returns `none` exactly
for lines empty after trimming and for extended-encoding lines with
fewer than two fields, and a complete event in every other case.  The
one internally guarded failure, timestamp normalisation, is encoded as
the total fallback inside `tsNormalize` (on the padded short encoding a
`null` timestamp slot stays `null`, mirroring the swallowed
`AttributeError`), so no exception escapes for any input string. -/
theorem c10_line_parser_total (line : String) :
    _parse_attlog_line line = none ↔
      attlogTrim line = "" ∨
        (tsvSel (attlogTrim line) = true ∧
          (tsvParts (attlogTrim line)).length < 2) := by
  unfold _parse_attlog_line
  by_cases h0 : attlogTrim line = ""
  · simp [h0]
  · by_cases hsel : tsvSel (attlogTrim line) = true
    · by_cases hlen : 2 ≤ (tsvParts (attlogTrim line)).length
      · simp [h0, hsel, hlen]
      · simp [h0, hsel, hlen]
        omega
    · simp [h0, hsel]

end Adms
